import Mathlib

/-!
Verification of the FraudGuard NFT fraud-analysis pipeline.

This file is a shallow embedding, in Lean 4, of the fraud-scoring code of
the repository (backend/agent/fraud_detector.py,
backend/agent/gemini_image_analyzer.py, backend/agent/clip_embeddings.py),
together with theorems settling the specification claims about it.

Modelling conventions:
- Python floats are modelled as rationals (ℚ); all constants in the code
  are decimal literals, and every property checked is an order/threshold
  property preserved by this reading.
- Python strings are modelled as Lean `String`; the Python primitives
  `.lower()`, `.strip()`, `in`, `.find()` are re-implemented below over
  character lists so that they are kernel-computable.
- Calls into external services (the Gemini model, json.loads, the
  database) are modelled as explicit parameters: a response text, a parse
  oracle `String → Option _`, or a query result.  A JSON field that may be
  missing or have the wrong runtime type is modelled as `Option _`.
-/

namespace FraudGuard

/-! ## Python string primitives, re-implemented over character lists -/

/-- Model of Python `needle in hay` (substring containment) on char lists. -/
def containsSub (pat : List Char) : List Char → Bool
  | [] => pat.isEmpty
  | c :: rest => pat.isPrefixOf (c :: rest) || containsSub pat rest

/-- Model of Python `needle in hay` for strings. -/
def strContains (hay needle : String) : Bool :=
  containsSub needle.data hay.data

/-- Model of Python `hay.find(pat)` (index of first occurrence) on char
lists; `none` models the -1 result. -/
def findIdx (pat : List Char) : List Char → Option Nat
  | [] => if pat.isEmpty then some 0 else none
  | c :: rest =>
      if pat.isPrefixOf (c :: rest) then some 0
      else (findIdx pat rest).map (· + 1)

/-- Model of Python `str.lower()` (ASCII case folding suffices here). -/
def pyLower (s : String) : String :=
  String.mk (s.data.map Char.toLower)

/-- Whitespace characters removed by Python `str.strip()`. -/
def isPySpace (c : Char) : Bool :=
  c = ' ' || c = '\t' || c = '\n' || c = '\r'

/-- Model of Python `str.strip()`. -/
def pyStrip (s : String) : String :=
  String.mk (((s.data.dropWhile isPySpace).reverse.dropWhile isPySpace).reverse)

/-- Model of Python `s.startswith(p)`. -/
def pyStartsWith (s p : String) : Bool :=
  p.data.isPrefixOf s.data

/-- Model of Python `str.upper()` (ASCII case folding suffices here). -/
def pyUpper (s : String) : String :=
  String.mk (s.data.map Char.toUpper)

/-- Model of Python `max(l)` guarded by `if l else 0.0`: the maximum of a
list of scores, or 0.0 for the empty list. -/
def maxD : List ℚ → ℚ
  | [] => 0
  | a :: t => t.foldl max a

/-- Model of the Python format expression `f"{x:.2f}"` for the non-negative
risk values occurring in the code: x rounded to two decimal places and
printed with exactly two digits after the point. -/
def format2 (q : ℚ) : String :=
  let cents : ℤ := ⌊q * 100 + 1 / 2⌋
  let ip := cents / 100
  let fp := cents % 100
  toString ip ++ "." ++ (if fp < 10 then "0" ++ toString fp else toString fp)

/-! ## Data model: image analysis (gemini_image_analyzer.py) -/

/-- One fraud-indicator value: the JSON object
`\x7bdetected, confidence, evidence\x7d`.  `confidence = none` models a
present but non-numeric value (skipped by the score calculation); an
absent confidence key behaves as `0.0` via `.get("confidence", 0.0)` and
is modelled as `some 0`. -/
structure IndicatorEntry where
  detected : Bool
  confidence : Option ℚ
  evidence : String
deriving DecidableEq, Repr

/-- The seven required indicator names
(gemini_image_analyzer.py, `required_indicators`, lines 433-437). -/
def requiredIndicators : List String :=
  ["low_effort_generation", "stolen_artwork", "ai_generated",
   "template_usage", "metadata_mismatch", "copyright_violation",
   "inappropriate_content"]

/-- The `fraud_indicators` mapping as an association list in insertion
order.  A `none` value models an entry whose value is not a dict
(`not isinstance(fraud_indicators[indicator], dict)`). -/
abbrev FraudIndicators := List (String × Option IndicatorEntry)

/-- The structured image-analysis result (the dict every image-analysis
path returns).  Only the fields the pipeline reads downstream are kept;
each corresponds to a key of the Python dict of the same name. -/
structure ImageAnalysisResult where
  description : String
  artistic_style : String
  quality_assessment : String
  fraud_indicators : FraudIndicators
  overall_fraud_score : ℚ
  risk_level : String
  key_visual_elements : List String
  color_palette : List String
  composition_analysis : String
  uniqueness_score : ℚ
  artistic_merit : String
  technical_quality : String
  market_value_assessment : String
  recommendation : String
  confidence_in_analysis : ℚ
  additional_notes : String
deriving DecidableEq, Repr

/-- The successfully json-parsed Gemini response, before validation and
backfilling (`parsed` in `_parse_gemini_response`).  `none` in a field
models a missing key (or, for the score fields, a non-numeric value, and
for the list fields a non-list value: the code treats those the same way
as missing). -/
structure RawImageParsed where
  description : Option String
  artistic_style : Option String
  quality_assessment : Option String
  fraud_indicators : FraudIndicators
  key_visual_elements : Option (List String)
  color_palette : Option (List String)
  composition_analysis : Option String
  uniqueness_score : Option ℚ
  artistic_merit : Option String
  technical_quality : Option String
  market_value_assessment : Option String
  recommendation : Option String
  confidence_in_analysis : Option ℚ
  additional_notes : Option String

/-- Key membership in an association list. -/
def hasKey (fis : FraudIndicators) (name : String) : Bool :=
  fis.any (fun e => e.1 = name)

/-- Backfill pass of `_parse_gemini_response` (lines 432-453): every
required indicator that is missing is inserted with the "Not analyzed"
default, and every required indicator bound to a non-dict value is
replaced by the "Malformed data" default.  Insertion order: existing keys
keep their position, missing required keys are appended in the order of
`requiredIndicators`, as a Python dict would. -/
def backfillIndicators (fis : FraudIndicators) : FraudIndicators :=
  let fixed := fis.map (fun e =>
    if requiredIndicators.contains e.1 && e.2.isNone then
      (e.1, some ⟨false, some 0, "Malformed data"⟩)
    else e)
  let missing := requiredIndicators.filter (fun n => !(hasKey fis n))
  fixed ++ missing.map (fun n => (n, some ⟨false, some 0, "Not analyzed"⟩))

/-- The `fraud_scores` list of `_parse_gemini_response` (lines 456-461):
the numeric confidences of the indicators marked detected (non-dict
entries and non-numeric confidences are skipped). -/
def detectedConfidences (fis : FraudIndicators) : List ℚ :=
  fis.filterMap (fun e =>
    match e.2 with
    | some d => if d.detected then d.confidence else none
    | none => none)

/-- Risk-level derivation of `_parse_gemini_response` (lines 468-475). -/
def riskLevelOfScore (score : ℚ) : String :=
  if score ≥ 7 / 10 then "high"
  else if score ≥ 3 / 10 then "medium"
  else "low"

/-- Model of Python `s.split(sep)` for a non-empty separator sequence,
over char lists. -/
def splitOnSeq (sep : List Char) : List Char → List (List Char)
  | [] => [[]]
  | c :: rest =>
    if h : sep.isPrefixOf (c :: rest) ∧ sep ≠ [] then
      [] :: splitOnSeq sep ((c :: rest).drop sep.length)
    else
      match splitOnSeq sep rest with
      | [] => [[c]]
      | g :: t => (c :: g) :: t
termination_by l => l.length
decreasing_by
  · simp only [List.length_drop, List.length_cons]
    have hlen : 1 ≤ sep.length := by
      cases sep with
      | nil => exact absurd rfl h.2
      | cons a t => simp
    omega
  · simp

/-- The `_extract_description_from_text` helper (lines 512-539): join the
prose-looking lines, truncating long output at a sentence boundary. -/
def extractDescriptionFromText (text : String) : String :=
  let lines := (text.data.splitOn '\n').map (fun l => pyStrip (String.mk l))
  let descriptionLines := lines.filter (fun l =>
    l ≠ "" && !(pyStartsWith l "\x7b") && !(pyStartsWith l "\"") &&
    !(pyStartsWith l "```") && l.data.length > 20)
  if descriptionLines ≠ [] then
    let full := String.intercalate " " descriptionLines
    if full.data.length > 500 then
      let sentences := splitOnSeq ['.', ' '] full.data
      if sentences.length > 2 then
        String.mk (List.intercalate ['.', ' '] (sentences.take 3)) ++ "."
      else
        String.mk (full.data.take 500) ++ "..."
    else full
  else "Could not extract detailed description from response"

/-- Processing of a successfully parsed Gemini JSON response
(`_parse_gemini_response`, lines 424-502): description fallback, indicator
backfilling, score and risk-level recomputation, and defaulting of the
remaining fields. -/
def processParsedImage (responseText : String) (p : RawImageParsed) :
    ImageAnalysisResult :=
  let d0 := p.description.getD ""
  let description :=
    if d0 = "" then extractDescriptionFromText responseText else d0
  let fis := backfillIndicators p.fraud_indicators
  let fraudScores := detectedConfidences fis
  let overall := maxD fraudScores
  { description := description
    artistic_style := p.artistic_style.getD "unknown"
    quality_assessment := p.quality_assessment.getD "Analysis completed"
    fraud_indicators := fis
    overall_fraud_score := overall
    risk_level := riskLevelOfScore overall
    key_visual_elements := p.key_visual_elements.getD []
    color_palette := p.color_palette.getD []
    composition_analysis := p.composition_analysis.getD "Analysis completed"
    uniqueness_score := p.uniqueness_score.getD 0
    artistic_merit := p.artistic_merit.getD "Analysis completed"
    technical_quality := p.technical_quality.getD "Analysis completed"
    market_value_assessment :=
      p.market_value_assessment.getD "Analysis completed"
    recommendation := p.recommendation.getD
      (if overall < 3 / 10 then "ALLOW"
       else if overall < 7 / 10 then "FLAG" else "BLOCK")
    confidence_in_analysis := p.confidence_in_analysis.getD (4 / 5)
    additional_notes :=
      p.additional_notes.getD "Analysis completed successfully" }

/-- Python `repr` of a list of strings, as interpolated into the evidence
strings of the text-extraction path. -/
def pyListRepr (l : List String) : String :=
  "[" ++ String.intercalate ", " (l.map (fun s => "\x27" ++ s ++ "\x27")) ++ "]"

/-- The keyword table of `_extract_structured_info_from_text`
(lines 553-582): for each indicator, its negative keywords and its
positive keywords. -/
def indicatorKeywordConfig : List (String × List String × List String) :=
  [("low_effort_generation",
    (["low effort", "simple", "basic", "minimal", "lazy", "quick",
      "rushed", "poor quality"],
     ["detailed", "complex", "intricate", "careful", "professional"])),
   ("stolen_artwork",
    (["stolen", "plagiarized", "copied", "watermark", "signature",
      "copyright", "trademark"],
     ["original", "unique", "authentic", "genuine"])),
   ("ai_generated",
    (["ai generated", "artificial", "generated", "synthetic", "computer",
      "algorithm", "machine"],
     ["hand-drawn", "painted", "photographed", "scanned"])),
   ("template_usage",
    (["template", "generic", "common", "standard", "mass-produced",
      "cookie cutter"],
     ["unique", "original", "custom", "one-of-a-kind"])),
   ("metadata_mismatch",
    (["mismatch", "inconsistent", "doesn\x27t match", "wrong", "incorrect"],
     ["matches", "consistent", "accurate", "correct"])),
   ("copyright_violation",
    (["copyright", "trademark", "brand", "logo", "disney", "marvel",
      "nintendo"],
     ["original", "public domain", "creative commons"])),
   ("inappropriate_content",
    (["inappropriate", "nsfw", "violent", "hate", "offensive", "explicit"],
     ["appropriate", "family-friendly", "safe", "clean"]))]

/-- Per-indicator keyword classification of
`_extract_structured_info_from_text` (lines 584-612): negative-only
keywords give detected with confidence 0.6, positive-only gives
not-detected with 0.8, mixed gives not-detected with 0.4, neither gives
not-detected with 0.2. -/
def textIndicator (textLower : String) (kws posKws : List String) :
    IndicatorEntry :=
  let detectedNegative := kws.any (fun k => strContains textLower k)
  let detectedPositive := posKws.any (fun k => strContains textLower k)
  if detectedNegative && !detectedPositive then
    ⟨true, some (3 / 5),
     "Detected negative indicators: " ++
       pyListRepr (kws.filter (fun k => strContains textLower k))⟩
  else if detectedPositive && !detectedNegative then
    ⟨false, some (4 / 5),
     "Detected positive indicators: " ++
       pyListRepr (posKws.filter (fun k => strContains textLower k))⟩
  else if detectedNegative && detectedPositive then
    ⟨false, some (2 / 5),
     "Mixed indicators detected - positive indicators suggest legitimate content"⟩
  else
    ⟨false, some (1 / 5),
     "No clear indicators detected - requires manual review"⟩

/-- Artistic-style detection of `_extract_structured_info_from_text`
(lines 630-640). -/
def textArtisticStyle (textLower : String) : String :=
  if ["pixel", "8-bit", "retro"].any (strContains textLower) then
    "pixel art"
  else if ["3d", "render", "blender", "maya"].any (strContains textLower) then
    "3D render"
  else if ["photo", "photograph", "camera"].any (strContains textLower) then
    "photography"
  else if ["painting", "oil", "watercolor", "acrylic"].any
      (strContains textLower) then
    "painting"
  else if ["digital", "photoshop", "illustrator"].any
      (strContains textLower) then
    "digital art"
  else "unknown"

/-- Risk level and recommendation of the text-extraction path
(lines 618-627).  Note its thresholds: high for score ≥ 0.6, medium for
≥ 0.3, otherwise low. -/
def textRiskRec (s : ℚ) : String × String :=
  if s ≥ 3 / 5 then ("high", "FLAG")
  else if s ≥ 3 / 10 then ("medium", "REVIEW")
  else ("low", "ALLOW")

/-- The keyword-heuristic fallback `_extract_structured_info_from_text`
(lines 541-659), used when every JSON extraction strategy fails. -/
def extractStructuredInfoFromText (text : String) : ImageAnalysisResult :=
  let description := extractDescriptionFromText text
  let textLower := pyLower text
  let fis : FraudIndicators := indicatorKeywordConfig.map (fun cfg =>
    (cfg.1, some (textIndicator textLower cfg.2.1 cfg.2.2)))
  let fraudScores := detectedConfidences fis
  let overall := maxD fraudScores
  let riskRec : String × String := textRiskRec overall
  { description := description
    artistic_style := textArtisticStyle textLower
    quality_assessment := "Analysis completed via text extraction"
    fraud_indicators := fis
    overall_fraud_score := overall
    risk_level := riskRec.1
    key_visual_elements := ["extracted from text analysis"]
    color_palette := ["extracted from text analysis"]
    composition_analysis := "Analysis completed via text extraction"
    uniqueness_score := 1 / 2
    artistic_merit := "Analysis completed via text extraction"
    technical_quality := "Analysis completed via text extraction"
    market_value_assessment := "Analysis completed via text extraction"
    recommendation := riskRec.2
    confidence_in_analysis := 2 / 5
    additional_notes :=
      "Analysis completed using text extraction due to JSON parsing failure. Manual review recommended for higher accuracy." }

/-- `_parse_gemini_response` (lines 365-510): the response text is
stripped, the tiered JSON extraction strategies are attempted (modelled by
the `parse` oracle, standing for the three strategies around
`json.loads`), a successful parse is validated and backfilled, and on
total failure the keyword heuristic runs on the raw text. -/
def parseGeminiResponse (parse : String → Option RawImageParsed)
    (responseText : String) : ImageAnalysisResult :=
  match parse (pyStrip responseText) with
  | some p => processParsedImage (pyStrip responseText) p
  | none => extractStructuredInfoFromText (pyStrip responseText)

/-! ## fraud_detector.py: image-analysis fallbacks of the orchestrator -/

/-- The analyzer-unavailable fallback of `_analyze_image_with_gemini`
(fraud_detector.py, lines 253-297), returned when `self.gemini_analyzer`
is `None`.  Its `fraud_indicators` dict lists five indicators only. -/
def analyzerUnavailableImageResult (title : String) : ImageAnalysisResult :=
  { description :=
      "Image analysis for " ++ title ++ " - Gemini analyzer not available"
    artistic_style := "unknown"
    quality_assessment := "Analysis not available"
    fraud_indicators :=
      [("low_effort_generation",
        some ⟨false, some 0, "Analysis not available"⟩),
       ("stolen_artwork", some ⟨false, some 0, "Analysis not available"⟩),
       ("ai_generated", some ⟨false, some 0, "Analysis not available"⟩),
       ("template_usage", some ⟨false, some 0, "Analysis not available"⟩),
       ("metadata_mismatch", some ⟨false, some 0, "Analysis not available"⟩)]
    overall_fraud_score := 0
    risk_level := "unknown"
    key_visual_elements := []
    color_palette := []
    composition_analysis := "Analysis not available"
    uniqueness_score := 0
    artistic_merit := "Analysis not available"
    technical_quality := "Analysis not available"
    market_value_assessment := "Analysis not available"
    recommendation := "Manual review required - Gemini analyzer not available"
    confidence_in_analysis := 0
    additional_notes :=
      "Gemini analyzer not available for detailed image analysis" }

/-- The error fallback of `_analyze_image_with_gemini`
(fraud_detector.py, lines 299-344), returned when the analyzer raised.
It also lists five indicators only. -/
def imageAnalysisErrorResult (title : String) (err : String) :
    ImageAnalysisResult :=
  { description := "Error analyzing " ++ title
    artistic_style := "unknown"
    quality_assessment := "Analysis failed"
    fraud_indicators :=
      [("low_effort_generation", some ⟨false, some 0, "Analysis failed"⟩),
       ("stolen_artwork", some ⟨false, some 0, "Analysis failed"⟩),
       ("ai_generated", some ⟨false, some 0, "Analysis failed"⟩),
       ("template_usage", some ⟨false, some 0, "Analysis failed"⟩),
       ("metadata_mismatch", some ⟨false, some 0, "Analysis failed"⟩)]
    overall_fraud_score := 0
    risk_level := "unknown"
    key_visual_elements := []
    color_palette := []
    composition_analysis := "Analysis failed"
    uniqueness_score := 0
    artistic_merit := "Analysis failed"
    technical_quality := "Analysis failed"
    market_value_assessment := "Analysis failed"
    recommendation := "Manual review required - Analysis error"
    confidence_in_analysis := 0
    additional_notes := "Error: " ++ err }

/-! ## fraud_detector.py: similarity search (`_check_similarity`) -/

/-- One candidate row of the pgvector nearest-neighbour query
(fraud_detector.py, lines 389-400): id, title, image_url, creator wallet
address, and the cosine distance to the query embedding. -/
structure SimilarRow where
  id : String
  title : String
  image_url : String
  creator_wallet_address : String
  distance : ℚ
deriving DecidableEq, Repr

/-- One entry of `similar_nfts` (lines 419-427). -/
structure SimilarNFT where
  nft_id : String
  name : String
  creator : String
  image_url : String
  similarity : ℚ
deriving DecidableEq, Repr

/-- The similarity-search result shape (lines 353-359 and 437-443). -/
structure SimilarityResult where
  similar_nfts : List SimilarNFT
  max_similarity : ℚ
  is_duplicate : Bool
  similarity_count : Nat
  evidence_urls : List String
  error : Option String
deriving DecidableEq, Repr

/-- The zero-result shape returned on every degraded path of
`_check_similarity`. -/
def zeroSimilarityResult (err : Option String) : SimilarityResult :=
  { similar_nfts := []
    max_similarity := 0
    is_duplicate := false
    similarity_count := 0
    evidence_urls := []
    error := err }

/-- The rows kept by the loop of `_check_similarity` (lines 413-430):
those whose similarity `1 - distance` is at least the 0.7 threshold,
in query order. -/
def keptRows (rows : List SimilarRow) : List SimilarRow :=
  rows.filter (fun r => 1 - r.distance ≥ 7 / 10)

/-- `_check_similarity` (fraud_detector.py, lines 346-468).  Inputs model
the run environment: the embedding carried by the image analysis (`none`
models a missing key), whether the database imports succeeded, and the
query outcome (`Except.error` models a raised database exception).  The
SQL statement orders rows by ascending distance and caps them at 10; that
fact about the row list is a hypothesis of the theorems below, not of
this definition. -/
def checkSimilarity (embedding : Option (List ℚ)) (depsAvailable : Bool)
    (queryResult : Except String (List SimilarRow)) : SimilarityResult :=
  match embedding with
  | none => zeroSimilarityResult none
  | some emb =>
    if emb.isEmpty then zeroSimilarityResult none
    else if !depsAvailable then zeroSimilarityResult none
    else
      match queryResult with
      | .error e => zeroSimilarityResult (some ("Database search failed: " ++ e))
      | .ok rows =>
        let kept := keptRows rows
        { similar_nfts := kept.map (fun r =>
            ⟨r.id, r.title, r.creator_wallet_address, r.image_url,
             1 - r.distance⟩)
          max_similarity := (kept.map (fun r => 1 - r.distance)).foldl max 0
          is_duplicate :=
            ((kept.map (fun r => 1 - r.distance)).foldl max 0) > 19 / 20
          similarity_count := kept.length
          evidence_urls := kept.map (fun r => r.image_url)
          error := none }

/-! ## fraud_detector.py: metadata analysis (`_analyze_metadata`) -/

/-- The metadata-analysis result shape. -/
structure MetadataAnalysisResult where
  quality_score : ℚ
  suspicious_indicators : List String
  metadata_risk : ℚ
  analysis : Option String
deriving DecidableEq, Repr

/-- A successfully json-parsed metadata response, before type guards.
`none` models a missing key or a value of the wrong runtime type. -/
structure RawMetadata where
  quality_score : Option ℚ
  metadata_risk : Option ℚ
  suspicious_indicators : Option (List String)
  analysis : Option String

/-- The markdown-fence JSON extraction shared by `_analyze_metadata`
(lines 530-540) and `_make_llm_fraud_decision` (lines 668-678): take the
text between a ```json fence (or a bare ``` fence) and the next ```
fence, stripped; leave the text unchanged when no closing fence exists. -/
def extractFenced (s : String) : String :=
  let cs := s.data
  match findIdx "```json".data cs with
  | some i =>
    let rest := cs.drop (i + 7)
    match findIdx "```".data rest with
    | some j => pyStrip (String.mk (rest.take j))
    | none => s
  | none =>
    match findIdx "```".data cs with
    | some i =>
      let rest := cs.drop (i + 3)
      match findIdx "```".data rest with
      | some j => pyStrip (String.mk (rest.take j))
      | none => s
    | none => s

/-- `_analyze_metadata` (fraud_detector.py, lines 470-572).
`llmAvailable` models `self.llm` being configured; `parse` is the oracle
for `json.loads`; `responseContent` is the model response text.  The
final outer-exception path (lines 565-572) is not reachable from these
inputs and is not modelled. -/
def analyzeMetadata (llmAvailable : Bool)
    (parse : String → Option RawMetadata) (responseContent : String) :
    MetadataAnalysisResult :=
  if !llmAvailable then
    { quality_score := 7 / 10
      suspicious_indicators := []
      metadata_risk := 1 / 10
      analysis := none }
  else
    let responseText := pyStrip responseContent
    if responseText = "" then
      { quality_score := 1 / 2
        suspicious_indicators := ["Empty LLM response"]
        metadata_risk := 1 / 5
        analysis := some "Fallback analysis used due to empty response" }
    else
      match parse (extractFenced responseText) with
      | none =>
        { quality_score := 1 / 2
          suspicious_indicators := ["LLM response parsing failed"]
          metadata_risk := 1 / 5
          analysis := some "Fallback analysis used due to parsing error" }
      | some raw =>
        { quality_score := raw.quality_score.getD (1 / 2)
          suspicious_indicators := raw.suspicious_indicators.getD []
          metadata_risk := raw.metadata_risk.getD (1 / 10)
          analysis := raw.analysis }

/-! ## fraud_detector.py: the decision maker -/

/-- A successfully json-parsed LLM verdict, before type guards
(`fraud_decision` in `_make_llm_fraud_decision`).  `none` models a
missing key or a value of the wrong runtime type.  A non-string
`recommendation` value makes the Python `.upper()` call raise, which the
surrounding handler turns into the safe-fallback path; that case is
therefore part of `DecisionPath.parseFailure`, not of this record. -/
structure RawDecision where
  is_fraud : Option Bool
  confidence_score : Option ℚ
  flag_type : Option Int
  reason : Option String
  primary_concerns : Option (List String)
  recommendation : Option String

/-- The final fraud decision (the dict `_make_llm_fraud_decision`
returns).  `recommendation = none` models a dict without that key, and
`risk_breakdown` is present only on the simple LLM-unavailable path. -/
structure FraudDecision where
  is_fraud : Bool
  confidence_score : ℚ
  flag_type : Option Int
  reason : Option String
  recommendation : Option String
  risk_breakdown : Option (ℚ × ℚ × ℚ)
  fallback_used : Bool
  error : Option String
deriving DecidableEq, Repr

/-- The weighted blend shared by both heuristic decision paths
(lines 589 and 725): 0.5·image + 0.3·similarity + 0.2·metadata. -/
def combinedRisk (imageRisk similarityRisk metadataRisk : ℚ) : ℚ :=
  imageRisk * (1 / 2) + similarityRisk * (3 / 10) + metadataRisk * (1 / 5)

/-- The simple LLM-unavailable fallback of `_make_llm_fraud_decision`
(lines 583-601).  Its confidence is the uncapped combined risk. -/
def llmUnavailableDecision (imageRisk similarityRisk metadataRisk : ℚ) :
    FraudDecision :=
  let risk := combinedRisk imageRisk similarityRisk metadataRisk
  { is_fraud := risk > 3 / 5
    confidence_score := risk
    flag_type :=
      if risk > 4 / 5 then some 1 else if risk > 3 / 5 then some 2 else none
    reason := some ("Fallback analysis - Combined risk: " ++ format2 risk)
    recommendation := none
    risk_breakdown := some (imageRisk, similarityRisk, metadataRisk)
    fallback_used := false
    error := none }

/-- The parsed-verdict path of `_make_llm_fraud_decision`
(lines 680-699): type guards on `is_fraud` and `confidence_score`,
followed by the post-parse consistency repair on the uppercased
recommendation. -/
def parsedDecision (raw : RawDecision) : FraudDecision :=
  let isFraud0 := raw.is_fraud.getD false
  let confidence := raw.confidence_score.getD 0
  let recUpper := pyUpper (raw.recommendation.getD "")
  let isFraud :=
    if confidence ≥ 7 / 10 ∧ (recUpper = "FLAG" ∨ recUpper = "BLOCK") then
      true
    else if confidence < 3 / 10 ∧ recUpper = "ALLOW" then false
    else isFraud0
  { is_fraud := isFraud
    confidence_score := confidence
    flag_type := raw.flag_type
    reason := raw.reason
    recommendation := raw.recommendation
    risk_breakdown := none
    fallback_used := false
    error := none }

/-- `_get_safe_fallback_decision` (lines 717-748), used when the decision
LLM response is empty or unparsable. -/
def getSafeFallbackDecision (imageRisk similarityRisk metadataRisk : ℚ)
    (isDuplicate : Bool) : FraudDecision :=
  let risk := combinedRisk imageRisk similarityRisk metadataRisk
  { is_fraud := risk > 7 / 10
    confidence_score := min risk (4 / 5)
    flag_type :=
      if risk > 4 / 5 then some 1 else if risk > 3 / 5 then some 2 else none
    reason := some
      ("Fallback analysis (LLM unavailable) - Combined risk: " ++
        format2 risk ++
        (if isDuplicate then " - Potential duplicate detected" else ""))
    recommendation :=
      some (if risk > 1 / 2 then "MANUAL_REVIEW" else "ALLOW")
    risk_breakdown := none
    fallback_used := true
    error := none }

/-- The outer exception path of `_make_llm_fraud_decision`
(lines 707-715). -/
def decisionErrorResult (err : String) : FraudDecision :=
  { is_fraud := false
    confidence_score := 0
    flag_type := none
    reason := some ("Decision analysis error: " ++ err)
    recommendation := none
    risk_breakdown := none
    fallback_used := false
    error := some err }

/-- The exhaustive set of return paths of `_make_llm_fraud_decision`
(together with `_get_safe_fallback_decision`): the LLM is unconfigured;
the response parsed into a verdict; the response was empty or unparsable
(or `.upper()` raised on a non-string recommendation); or the call itself
raised. -/
inductive DecisionPath where
  | llmUnavailable (imageRisk similarityRisk metadataRisk : ℚ)
  | parsedOk (raw : RawDecision)
  | parseFailure (imageRisk similarityRisk metadataRisk : ℚ)
      (isDuplicate : Bool)
  | llmError (err : String)

/-- `_make_llm_fraud_decision` (fraud_detector.py, lines 574-748), as a
function of which path the call takes. -/
def makeLlmFraudDecision : DecisionPath → FraudDecision
  | .llmUnavailable i s m => llmUnavailableDecision i s m
  | .parsedOk raw => parsedDecision raw
  | .parseFailure i s m dup => getSafeFallbackDecision i s m dup
  | .llmError err => decisionErrorResult err

/-! ## clip_embeddings.py: the batch embed-and-store operation -/

/-- The `try`-block body of `batch_analyze_and_embed`
(clip_embeddings.py, lines 170-192): the length check raises a
`ValueError`, otherwise each triple is processed by
`get_image_embedding_and_store`, whose outcome is modelled by the total
`taskResult` function (that coroutine catches its own exceptions and
returns a bool; `asyncio.gather` exceptions are mapped to `False`). -/
def batchAnalyzeAndEmbedBody {α : Type} (taskResult : String → String → α → Bool)
    (imageUrls nftIds : List String) (metadataList : List α) :
    Except String (List Bool) :=
  if imageUrls.length ≠ nftIds.length ∨
      imageUrls.length ≠ metadataList.length then
    .error "All input lists must have the same length"
  else
    .ok ((imageUrls.zip (nftIds.zip metadataList)).map
      (fun t => taskResult t.1 t.2.1 t.2.2))

/-- `batch_analyze_and_embed` (clip_embeddings.py, lines 158-196): the
whole body runs under `except Exception`, which converts any raised
error - including the mismatched-length `ValueError` - into the ordinary
return value `[False] * len(image_urls)`. -/
def batchAnalyzeAndEmbed {α : Type} (taskResult : String → String → α → Bool)
    (imageUrls nftIds : List String) (metadataList : List α) : List Bool :=
  match batchAnalyzeAndEmbedBody taskResult imageUrls nftIds metadataList with
  | .ok r => r
  | .error _ => List.replicate imageUrls.length false

/-! ## gemini_image_analyzer.py: the description-extraction primitive -/

/-- `extract_image_description` (gemini_image_analyzer.py,
lines 782-831).  `imageData` models the downloaded image (`none` = the
download failed), `chatAvailable` models `self.gemini_chat`, and
`responseContent` is the model response.  The function raises (here:
returns `.error`) unless the stripped description is non-empty and longer
than 10 characters. -/
def extractImageDescription (imageData : Option String)
    (chatAvailable : Bool) (responseContent : String) :
    Except String String :=
  match imageData with
  | none => .error "Could not download image"
  | some _ =>
    if !chatAvailable then .error "Gemini chat not available"
    else
      let description := pyStrip responseContent
      if description ≠ "" && description.data.length > 10 then
        .ok description
      else
        .error ("Empty or too short description from Gemini: \x27" ++
          description ++ "\x27")

/-! ## Helper lemmas -/

lemma foldl_max_mem (t : List ℚ) (a : ℚ) : t.foldl max a ∈ a :: t := by
  induction t generalizing a with
  | nil => simp [List.foldl]
  | cons b t ih =>
    have h := ih (max a b)
    simp only [List.foldl]
    rcases List.mem_cons.mp h with h1 | h1
    · rcases max_choice a b with hm | hm
      · exact List.mem_cons.mpr (Or.inl (h1.trans hm))
      · exact List.mem_cons.mpr
          (Or.inr (List.mem_cons.mpr (Or.inl (h1.trans hm))))
    · exact List.mem_cons.mpr
        (Or.inr (List.mem_cons.mpr (Or.inr h1)))

lemma le_foldl_max_init (t : List ℚ) (a : ℚ) : a ≤ t.foldl max a := by
  induction t generalizing a with
  | nil => simp [List.foldl]
  | cons b t ih =>
    calc a ≤ max a b := le_max_left a b
    _ ≤ t.foldl max (max a b) := ih (max a b)

lemma le_foldl_max (t : List ℚ) (a x : ℚ) (hx : x ∈ t) :
    x ≤ t.foldl max a := by
  induction t generalizing a with
  | nil => cases hx
  | cons b t ih =>
    rcases List.mem_cons.mp hx with h | h
    · subst h
      calc x ≤ max a x := le_max_right a x
      _ ≤ t.foldl max (max a x) := le_foldl_max_init t (max a x)
    · exact ih (max a b) h

lemma foldl_max_of_le (t : List ℚ) (a : ℚ) (h : ∀ x ∈ t, x ≤ a) :
    t.foldl max a = a := by
  induction t generalizing a with
  | nil => rfl
  | cons b t ih =>
    have hb : b ≤ a := h b (List.mem_cons_self b t)
    have : max a b = a := max_eq_left hb
    simp only [List.foldl, this]
    exact ih a (fun x hx => h x (List.mem_cons_of_mem b hx))

lemma maxD_mem (l : List ℚ) (h : l ≠ []) : maxD l ∈ l := by
  cases l with
  | nil => exact absurd rfl h
  | cons a t => exact foldl_max_mem t a

lemma le_maxD (l : List ℚ) (x : ℚ) (hx : x ∈ l) : x ≤ maxD l := by
  cases l with
  | nil => cases hx
  | cons a t =>
    rcases List.mem_cons.mp hx with h | h
    · subst h; exact le_foldl_max_init t x
    · exact le_foldl_max t a x h

lemma isPrefixOf_self_append (l t : List Char) :
    l.isPrefixOf (l ++ t) = true := by
  induction l with
  | nil => simp [List.isPrefixOf]
  | cons c cs ih => simpa [List.isPrefixOf] using ih

lemma containsSub_append (a b c : List Char) :
    containsSub b (a ++ b ++ c) = true := by
  induction a with
  | nil =>
    rw [List.nil_append]
    cases b with
    | nil =>
      cases c with
      | nil => rfl
      | cons x xs => simp [containsSub, List.isPrefixOf]
    | cons y ys =>
      have hpre : (y :: ys).isPrefixOf ((y :: ys) ++ c) = true :=
        isPrefixOf_self_append (y :: ys) c
      rw [List.cons_append] at hpre ⊢
      unfold containsSub
      rw [hpre]
      rfl
  | cons d a ih =>
    have hs : (d :: a) ++ b ++ c = d :: (a ++ b ++ c) := by simp
    rw [hs]
    unfold containsSub
    rw [ih]
    simp

lemma strContains_append_mid (a b c : String) :
    strContains (a ++ b ++ c) b = true := by
  cases a with
  | mk la =>
    cases b with
    | mk lb =>
      cases c with
      | mk lc =>
        show containsSub lb (la ++ lb ++ lc) = true
        exact containsSub_append la lb lc

lemma strContains_append_right (a b : String) :
    strContains (a ++ b) b = true := by
  have h := strContains_append_mid a b ""
  cases a with
  | mk la =>
    cases b with
    | mk lb =>
      simpa [strContains] using h

lemma string_data_append (a b : String) :
    (a ++ b).data = a.data ++ b.data := by
  cases a
  cases b
  rfl

lemma containsSub_append_left (pat x y : List Char)
    (h : containsSub pat y = true) : containsSub pat (x ++ y) = true := by
  induction x with
  | nil => simpa using h
  | cons c t ih =>
    rw [List.cons_append]
    unfold containsSub
    rw [ih]
    simp

lemma strContains_append_left (x y n : String)
    (h : strContains y n = true) : strContains (x ++ y) n = true := by
  unfold strContains at *
  rw [string_data_append]
  exact containsSub_append_left _ _ _ h

/-- On every path of `_parse_gemini_response`, the derived overall fraud
score is `maxD` of the detected confidences of the produced indicator
map. -/
lemma overall_eq_maxD (parse : String → Option RawImageParsed)
    (resp : String) :
    (parseGeminiResponse parse resp).overall_fraud_score =
      maxD (detectedConfidences
        (parseGeminiResponse parse resp).fraud_indicators) := by
  unfold parseGeminiResponse
  cases hp : parse (pyStrip resp) with
  | none => rfl
  | some p => rfl

/-- Supportive fact: the json-parse path backfills every required
indicator, so its indicator map always has all seven required keys. -/
theorem backfill_has_required (fis : FraudIndicators) (n : String)
    (hn : n ∈ requiredIndicators) :
    hasKey (backfillIndicators fis) n = true := by
  unfold backfillIndicators hasKey
  rw [List.any_append, Bool.or_eq_true]
  by_cases hk : (fis.any fun e => e.1 = n) = true
  · left
    rw [List.any_eq_true] at hk ⊢
    obtain ⟨e, he, hee⟩ := hk
    have h1 : e.1 = n := by simpa using hee
    refine ⟨if requiredIndicators.contains e.1 && e.2.isNone then
        (e.1, some ⟨false, some 0, "Malformed data"⟩) else e,
      List.mem_map.mpr ⟨e, he, rfl⟩, ?_⟩
    split <;> simpa using h1
  · right
    rw [List.any_eq_true]
    refine ⟨(n, some ⟨false, some 0, "Not analyzed"⟩), ?_, by simp⟩
    apply List.mem_map.mpr
    refine ⟨n, ?_, rfl⟩
    rw [List.mem_filter]
    refine ⟨hn, ?_⟩
    have hf : (fis.any fun e => e.1 = n) = false := Bool.eq_false_iff.mpr hk
    simp [hf]

/-- Supportive fact: the keyword-heuristic path produces exactly the seven
required indicator keys, in order. -/
theorem text_extraction_has_required (text : String) :
    (extractStructuredInfoFromText text).fraud_indicators.map Prod.fst =
      requiredIndicators := rfl

/-- The three risk bands of the json-parse path, as an iff
characterization of `riskLevelOfScore`. -/
lemma riskLevelOfScore_bands (s : ℚ) :
    (riskLevelOfScore s = "high" ↔ s ≥ 7 / 10) ∧
    (riskLevelOfScore s = "medium" ↔ 3 / 10 ≤ s ∧ s < 7 / 10) ∧
    (riskLevelOfScore s = "low" ↔ s < 3 / 10) := by
  unfold riskLevelOfScore
  by_cases h1 : s ≥ 7 / 10
  · rw [if_pos h1]
    refine ⟨by simp [h1], ?_, ?_⟩
    · exact ⟨fun h => absurd h (by decide), fun h => absurd h.2 (by linarith)⟩
    · exact ⟨fun h => absurd h (by decide), fun h => absurd h (by linarith)⟩
  · rw [if_neg h1]
    by_cases h2 : s ≥ 3 / 10
    · rw [if_pos h2]
      refine ⟨?_, ?_, ?_⟩
      · exact ⟨fun h => absurd h (by decide), fun h => absurd h h1⟩
      · exact ⟨fun _ => ⟨h2, lt_of_not_ge h1⟩, fun _ => rfl⟩
      · exact ⟨fun h => absurd h (by decide), fun h => absurd h (by linarith)⟩
    · rw [if_neg h2]
      refine ⟨?_, ?_, ?_⟩
      · exact ⟨fun h => absurd h (by decide), fun h => absurd h h1⟩
      · exact ⟨fun h => absurd h (by decide), fun h => absurd h.1 h2⟩
      · exact ⟨fun _ => lt_of_not_ge h2, fun _ => rfl⟩

/-- The three risk bands of the text-extraction path, as an iff
characterization of `textRiskRec`; the high threshold is 0.6 here. -/
lemma textRiskRec_bands (s : ℚ) :
    ((textRiskRec s).1 = "high" ↔ s ≥ 3 / 5) ∧
    ((textRiskRec s).1 = "medium" ↔ 3 / 10 ≤ s ∧ s < 3 / 5) ∧
    ((textRiskRec s).1 = "low" ↔ s < 3 / 10) := by
  unfold textRiskRec
  by_cases h1 : s ≥ 3 / 5
  · rw [if_pos h1]
    refine ⟨by simp [h1], ?_, ?_⟩
    · exact ⟨fun h => absurd h (by decide), fun h => absurd h.2 (by linarith)⟩
    · exact ⟨fun h => absurd h (by decide), fun h => absurd h (by linarith)⟩
  · rw [if_neg h1]
    by_cases h2 : s ≥ 3 / 10
    · rw [if_pos h2]
      refine ⟨?_, ?_, ?_⟩
      · exact ⟨fun h => absurd h (by decide), fun h => absurd h h1⟩
      · exact ⟨fun _ => ⟨h2, lt_of_not_ge h1⟩, fun _ => rfl⟩
      · exact ⟨fun h => absurd h (by decide), fun h => absurd h (by linarith)⟩
    · rw [if_neg h2]
      refine ⟨?_, ?_, ?_⟩
      · exact ⟨fun h => absurd h (by decide), fun h => absurd h h1⟩
      · exact ⟨fun h => absurd h (by decide), fun h => absurd h.1 h2⟩
      · exact ⟨fun _ => lt_of_not_ge h2, fun _ => rfl⟩

/-- The spec-side characterization of the score derivation: the overall
fraud score is the maximum confidence among indicators marked detected,
or 0.0 when none is detected. -/
def scoreIsMaxDetected (r : ImageAnalysisResult) : Prop :=
  (detectedConfidences r.fraud_indicators = [] →
    r.overall_fraud_score = 0) ∧
  (detectedConfidences r.fraud_indicators ≠ [] →
    r.overall_fraud_score ∈ detectedConfidences r.fraud_indicators ∧
    ∀ c ∈ detectedConfidences r.fraud_indicators,
      c ≤ r.overall_fraud_score)

/-- The spec-side risk-band characterization, parametric in the
high-risk threshold. -/
def riskBands (r : ImageAnalysisResult) (hi : ℚ) : Prop :=
  (r.risk_level = "high" ↔ r.overall_fraud_score ≥ hi) ∧
  (r.risk_level = "medium" ↔
    3 / 10 ≤ r.overall_fraud_score ∧ r.overall_fraud_score < hi) ∧
  (r.risk_level = "low" ↔ r.overall_fraud_score < 3 / 10)

/-! ## C2 -/

/-- C2 (counterexample): the claim states that the image analyzer's
`risk_level` is "medium" exactly when 0.3 ≤ overall_fraud_score < 0.7 on
every path, the keyword-heuristic text-extraction path included.  On the
text-extraction path (response "stolen", no JSON), the derived score is
0.6 - inside the claimed medium band - yet the produced risk level is
"high", because `_extract_structured_info_from_text` uses 0.6 as its
high threshold. -/
theorem c2_text_risk_threshold_counterexample :
    (parseGeminiResponse (fun _ => none) "stolen").overall_fraud_score =
      3 / 5 ∧
    (3 : ℚ) / 10 ≤ 3 / 5 ∧ (3 : ℚ) / 5 < 7 / 10 ∧
    (parseGeminiResponse (fun _ => none) "stolen").risk_level = "high" ∧
    (parseGeminiResponse (fun _ => none) "stolen").risk_level ≠ "medium" := by
  have hov : (parseGeminiResponse (fun _ => none) "stolen").overall_fraud_score
      = 3 / 5 := rfl
  have hband :=
    (textRiskRec_bands
      ((parseGeminiResponse (fun _ => none) "stolen").overall_fraud_score)).1
  have hhigh : (parseGeminiResponse (fun _ => none) "stolen").risk_level
      = "high" := hband.mpr (by rw [hov])
  refine ⟨hov, by norm_num, by norm_num, hhigh, ?_⟩
  rw [hhigh]
  decide

/-- C2 (amended): on every path of `_parse_gemini_response`, the overall
fraud score equals the maximum confidence among indicators marked
detected (0.0 when none is detected); the risk bands use the 0.7/0.3
thresholds on the json-parse path but the 0.6/0.3 thresholds on the
keyword-heuristic text-extraction path. -/
theorem c2_score_derivation_and_risk_bands
    (parse : String → Option RawImageParsed) (resp : String) :
    scoreIsMaxDetected (parseGeminiResponse parse resp) ∧
    (∀ p, parse (pyStrip resp) = some p →
      riskBands (parseGeminiResponse parse resp) (7 / 10)) ∧
    (parse (pyStrip resp) = none →
      riskBands (parseGeminiResponse parse resp) (3 / 5)) := by
  refine ⟨?_, ?_, ?_⟩
  · have key := overall_eq_maxD parse resp
    constructor
    · intro h
      rw [key, h]
      rfl
    · intro h
      rw [key]
      exact ⟨maxD_mem _ h, fun c hc => le_maxD _ c hc⟩
  · intro p hp
    unfold parseGeminiResponse riskBands
    rw [hp]
    exact riskLevelOfScore_bands _
  · intro hp
    unfold parseGeminiResponse riskBands
    rw [hp]
    exact textRiskRec_bands _

/-- C2 (witness): the amended theorem applied at the concrete failing
parse and response. -/
theorem c2_score_derivation_and_risk_bands_witness :
    ((fun _ => (none : Option RawImageParsed)) (pyStrip "stolen") = none) ∧
    riskBands (parseGeminiResponse (fun _ => none) "stolen") (3 / 5) :=
  ⟨rfl,
   (c2_score_derivation_and_risk_bands (fun _ => none) "stolen").2.2 rfl⟩

/-! ## C1 -/

/-- C1: the claim states that every `ImageAnalysisResult`, on any path
including the analyzer-unavailable fallback, carries exactly the seven
required fraud-indicator keys.  The analyzer-unavailable fallback of
`_analyze_image_with_gemini` (fraud_detector.py, lines 253-297) carries
only five: `copyright_violation` and `inappropriate_content` are
missing, while the code's own required-indicator list has seven
entries. -/
theorem c1_analyzer_unavailable_five_indicators :
    (analyzerUnavailableImageResult "Test NFT").fraud_indicators.map
        Prod.fst =
      ["low_effort_generation", "stolen_artwork", "ai_generated",
       "template_usage", "metadata_mismatch"] ∧
    hasKey (analyzerUnavailableImageResult "Test NFT").fraud_indicators
        "copyright_violation" = false ∧
    hasKey (analyzerUnavailableImageResult "Test NFT").fraud_indicators
        "inappropriate_content" = false ∧
    hasKey (imageAnalysisErrorResult "Test NFT" "boom").fraud_indicators
        "copyright_violation" = false ∧
    requiredIndicators.length = 7 := by
  refine ⟨rfl, ?_, ?_, ?_, rfl⟩ <;> rfl

/-! ## C3 -/

/-- The consistency invariant on a produced decision: never a
high-confidence FLAG/BLOCK with `is_fraud = false`, and never a
low-confidence ALLOW with `is_fraud = true` (recommendations compared
after uppercasing, as the repair rule does). -/
def decisionConsistent (d : FraudDecision) : Prop :=
  (¬ (d.confidence_score ≥ 7 / 10 ∧
      (pyUpper (d.recommendation.getD "") = "FLAG" ∨
        pyUpper (d.recommendation.getD "") = "BLOCK") ∧
      d.is_fraud = false)) ∧
  (¬ (d.confidence_score < 3 / 10 ∧
      pyUpper (d.recommendation.getD "") = "ALLOW" ∧
      d.is_fraud = true))

/-- C3: every decision produced by `_make_llm_fraud_decision` - on the
LLM-unavailable path, the parsed-verdict path (thanks to the post-parse
consistency repair), the safe-fallback path and the error path - satisfies
the consistency invariant. -/
theorem c3_decision_consistency (p : DecisionPath) :
    decisionConsistent (makeLlmFraudDecision p) := by
  cases p with
  | llmUnavailable i s m =>
    simp only [decisionConsistent, makeLlmFraudDecision,
      llmUnavailableDecision]
    constructor
    · rintro ⟨-, hrec, -⟩
      rcases hrec with h | h <;> exact absurd h (by decide)
    · rintro ⟨-, hrec, -⟩
      exact absurd hrec (by decide)
  | parsedOk raw =>
    simp only [decisionConsistent, makeLlmFraudDecision, parsedDecision]
    constructor
    · rintro ⟨hc, hr, hf⟩
      rw [if_pos ⟨hc, hr⟩] at hf
      exact absurd hf (by decide)
    · rintro ⟨hc, hr, hf⟩
      have hA : ¬ (raw.confidence_score.getD 0 ≥ 7 / 10 ∧
          (pyUpper (raw.recommendation.getD "") = "FLAG" ∨
            pyUpper (raw.recommendation.getD "") = "BLOCK")) := by
        rintro ⟨h1, -⟩
        linarith
      rw [if_neg hA, if_pos ⟨hc, hr⟩] at hf
      exact absurd hf (by decide)
  | parseFailure i s m dup =>
    simp only [decisionConsistent, makeLlmFraudDecision,
      getSafeFallbackDecision]
    constructor
    · rintro ⟨-, hrec, -⟩
      by_cases hrisk : combinedRisk i s m > 1 / 2
      · rw [if_pos hrisk] at hrec
        rcases hrec with h | h <;> exact absurd h (by decide)
      · rw [if_neg hrisk] at hrec
        rcases hrec with h | h <;> exact absurd h (by decide)
    · rintro ⟨-, hrec, hf⟩
      by_cases hrisk : combinedRisk i s m > 1 / 2
      · rw [if_pos hrisk] at hrec
        exact absurd hrec (by decide)
      · rw [if_neg hrisk] at hrec
        rw [decide_eq_true_eq] at hf
        have : ¬ combinedRisk i s m > 7 / 10 := by
          intro h
          exact hrisk (by linarith)
        exact this hf
  | llmError e =>
    simp only [decisionConsistent, makeLlmFraudDecision,
      decisionErrorResult]
    constructor
    · rintro ⟨hc, -, -⟩
      norm_num at hc
    · rintro ⟨-, -, hf⟩
      exact absurd hf (by decide)

/-- C3 (witness): the invariant theorem applied at a concrete decision
path. -/
theorem c3_decision_consistency_witness :
    decisionConsistent (makeLlmFraudDecision (.llmError "timeout")) :=
  c3_decision_consistency (.llmError "timeout")

/-! ## C4 -/

/-- C4: the safe-fallback decision (empty or unparsable LLM response)
blends the three risks with weights 0.5/0.3/0.2, flags fraud above 0.7,
caps confidence at 0.8, derives flag_type from the 0.6/0.8 bands,
recommends MANUAL_REVIEW above combined risk 0.5 and ALLOW otherwise,
and its reason string names the formatted combined risk and mentions
duplicate detection when the similarity result flagged a duplicate. -/
theorem c4_safe_fallback_decision (i s m : ℚ) (dup : Bool) :
    combinedRisk i s m = i * (1 / 2) + s * (3 / 10) + m * (1 / 5) ∧
    ((makeLlmFraudDecision (.parseFailure i s m dup)).is_fraud = true ↔
      combinedRisk i s m > 7 / 10) ∧
    (makeLlmFraudDecision (.parseFailure i s m dup)).confidence_score =
      min (combinedRisk i s m) (4 / 5) ∧
    (combinedRisk i s m ≤ 3 / 5 →
      (makeLlmFraudDecision (.parseFailure i s m dup)).flag_type = none) ∧
    (3 / 5 < combinedRisk i s m → combinedRisk i s m ≤ 4 / 5 →
      (makeLlmFraudDecision (.parseFailure i s m dup)).flag_type = some 2) ∧
    (4 / 5 < combinedRisk i s m →
      (makeLlmFraudDecision (.parseFailure i s m dup)).flag_type = some 1) ∧
    (combinedRisk i s m > 1 / 2 →
      (makeLlmFraudDecision (.parseFailure i s m dup)).recommendation =
        some "MANUAL_REVIEW") ∧
    (¬ combinedRisk i s m > 1 / 2 →
      (makeLlmFraudDecision (.parseFailure i s m dup)).recommendation =
        some "ALLOW") ∧
    strContains
      ((makeLlmFraudDecision (.parseFailure i s m dup)).reason.getD "")
      (format2 (combinedRisk i s m)) = true ∧
    (dup = true →
      strContains
        ((makeLlmFraudDecision (.parseFailure i s m dup)).reason.getD "")
        "duplicate detected" = true) := by
  refine ⟨rfl, ⟨of_decide_eq_true, decide_eq_true⟩, rfl, ?_, ?_, ?_,
    ?_, ?_, ?_, ?_⟩
  · intro h
    show (if combinedRisk i s m > 4 / 5 then some 1
      else if combinedRisk i s m > 3 / 5 then some 2 else none) = none
    rw [if_neg (by linarith), if_neg (by linarith)]
  · intro h1 h2
    show (if combinedRisk i s m > 4 / 5 then some 1
      else if combinedRisk i s m > 3 / 5 then some 2 else none) = some 2
    rw [if_neg (by linarith), if_pos h1]
  · intro h
    show (if combinedRisk i s m > 4 / 5 then some 1
      else if combinedRisk i s m > 3 / 5 then some 2 else none) = some 1
    rw [if_pos h]
  · intro h
    show some (if combinedRisk i s m > 1 / 2 then "MANUAL_REVIEW"
      else "ALLOW") = some "MANUAL_REVIEW"
    rw [if_pos h]
  · intro h
    show some (if combinedRisk i s m > 1 / 2 then "MANUAL_REVIEW"
      else "ALLOW") = some "ALLOW"
    rw [if_neg h]
  · exact strContains_append_mid _ _ _
  · intro hdup
    show strContains
      ("Fallback analysis (LLM unavailable) - Combined risk: " ++
        (format2 (combinedRisk i s m) ++
          (if dup = true then " - Potential duplicate detected" else "")))
      "duplicate detected" = true
    rw [if_pos hdup]
    exact strContains_append_left _ _ _
      (strContains_append_left _ _ _ (by decide))

/-- C4 (witness): the fallback-decision theorem applied at concrete
risks 1/1/1 with a detected duplicate. -/
theorem c4_safe_fallback_decision_witness :
    (4 : ℚ) / 5 < combinedRisk 1 1 1 ∧
    (makeLlmFraudDecision (.parseFailure 1 1 1 true)).flag_type = some 1 := by
  have hcr : (4 : ℚ) / 5 < combinedRisk 1 1 1 := by norm_num [combinedRisk]
  exact ⟨hcr, (c4_safe_fallback_decision 1 1 1 true).2.2.2.2.2.1 hcr⟩

/-! ## C5 -/

/-- C5 (counterexample): the claim states that every fallback-path
decision has confidence at most 0.8, the simple LLM-unavailable variant
included.  That variant (`_make_llm_fraud_decision`, lines 583-601) sets
`confidence_score = combined_risk` without a cap: with all three risks at
1.0 the combined risk, and hence the confidence, is 1.0 > 0.8. -/
theorem c5_llm_unavailable_confidence_uncapped :
    (makeLlmFraudDecision (.llmUnavailable 1 1 1)).confidence_score = 1 ∧
    ¬ ((makeLlmFraudDecision (.llmUnavailable 1 1 1)).confidence_score ≤
        4 / 5) := by
  have h : (makeLlmFraudDecision (.llmUnavailable 1 1 1)).confidence_score
      = combinedRisk 1 1 1 := rfl
  refine ⟨?_, ?_⟩ <;> rw [h] <;> norm_num [combinedRisk]

/-- C5 (amended): the safe-fallback path (empty or unparsable LLM
response) and the decision-error path keep confidence at or below the
0.8 cap; the simple LLM-unavailable variant instead returns the uncapped
combined risk as its confidence. -/
theorem c5_fallback_confidence_cap (i s m : ℚ) (dup : Bool) (e : String) :
    (makeLlmFraudDecision (.parseFailure i s m dup)).confidence_score ≤
      4 / 5 ∧
    (makeLlmFraudDecision (.llmError e)).confidence_score ≤ 4 / 5 ∧
    (makeLlmFraudDecision (.llmUnavailable i s m)).confidence_score =
      combinedRisk i s m := by
  refine ⟨min_le_right _ _, ?_, rfl⟩
  show (0 : ℚ) ≤ 4 / 5
  norm_num

/-! ## C10 -/

/-- C10: on the safe-fallback path, a fraud verdict forces confidence
strictly above 0.7 and a MANUAL_REVIEW recommendation - the fallback
never pairs `is_fraud = true` with ALLOW or with low confidence. -/
theorem c10_safe_fallback_fraud_coherence (i s m : ℚ) (dup : Bool)
    (h : (makeLlmFraudDecision (.parseFailure i s m dup)).is_fraud = true) :
    (makeLlmFraudDecision (.parseFailure i s m dup)).confidence_score >
      7 / 10 ∧
    (makeLlmFraudDecision (.parseFailure i s m dup)).recommendation =
      some "MANUAL_REVIEW" := by
  have hrisk : combinedRisk i s m > 7 / 10 := of_decide_eq_true h
  constructor
  · show min (combinedRisk i s m) (4 / 5) > 7 / 10
    exact lt_min hrisk (by norm_num)
  · show some (if combinedRisk i s m > 1 / 2 then "MANUAL_REVIEW"
      else "ALLOW") = some "MANUAL_REVIEW"
    rw [if_pos (by linarith)]

/-- C10 (witness): the coherence theorem applied at concrete risks
1/1/1. -/
theorem c10_safe_fallback_fraud_coherence_witness :
    (makeLlmFraudDecision (.parseFailure 1 1 1 false)).is_fraud = true ∧
    ((makeLlmFraudDecision (.parseFailure 1 1 1 false)).confidence_score >
        7 / 10 ∧
      (makeLlmFraudDecision (.parseFailure 1 1 1 false)).recommendation =
        some "MANUAL_REVIEW") := by
  have hf : (makeLlmFraudDecision (.parseFailure 1 1 1 false)).is_fraud
      = true := by
    show decide (combinedRisk 1 1 1 > 7 / 10) = true
    rw [decide_eq_true_eq]
    norm_num [combinedRisk]
  exact ⟨hf, c10_safe_fallback_fraud_coherence 1 1 1 false hf⟩

/-! ## C6 -/

/-- C6: for a similarity query whose row list respects what the SQL
statement guarantees (ascending distance order, at most 10 rows), every
reported entry has similarity `1 - distance` of some row and lies at or
above the 0.7 threshold; the list is capped at 10 and sorted by
non-increasing similarity; `max_similarity` is 0.0 for an empty result
and the first entry's similarity otherwise; `is_duplicate` holds exactly
above 0.95; and the no-embedding, empty-embedding, missing-dependency and
query-error paths all return the zero-result shape instead of raising. -/
theorem c6_similarity_search (emb : List ℚ) (hemb : emb ≠ [])
    (rows : List SimilarRow)
    (hsorted : rows.Pairwise (fun a b => a.distance ≤ b.distance))
    (hlen : rows.length ≤ 10) :
    (∀ x ∈ (checkSimilarity (some emb) true (.ok rows)).similar_nfts,
      x.similarity ≥ 7 / 10 ∧ ∃ r ∈ rows, x.similarity = 1 - r.distance) ∧
    (checkSimilarity (some emb) true (.ok rows)).similar_nfts.length ≤ 10 ∧
    (checkSimilarity (some emb) true (.ok rows)).similar_nfts.Pairwise
      (fun a b => b.similarity ≤ a.similarity) ∧
    ((checkSimilarity (some emb) true (.ok rows)).similar_nfts = [] →
      (checkSimilarity (some emb) true (.ok rows)).max_similarity = 0) ∧
    (∀ x xs,
      (checkSimilarity (some emb) true (.ok rows)).similar_nfts = x :: xs →
      (checkSimilarity (some emb) true (.ok rows)).max_similarity =
        x.similarity) ∧
    ((checkSimilarity (some emb) true (.ok rows)).is_duplicate = true ↔
      (checkSimilarity (some emb) true (.ok rows)).max_similarity >
        19 / 20) ∧
    checkSimilarity none true (.ok rows) = zeroSimilarityResult none ∧
    checkSimilarity (some []) true (.ok rows) = zeroSimilarityResult none ∧
    checkSimilarity (some emb) false (.ok rows) = zeroSimilarityResult none ∧
    (∀ e, (checkSimilarity (some emb) true (.error e)).similar_nfts = [] ∧
      (checkSimilarity (some emb) true (.error e)).max_similarity = 0 ∧
      (checkSimilarity (some emb) true (.error e)).is_duplicate = false) := by
  have hie : emb.isEmpty = false := by
    cases emb with
    | nil => exact absurd rfl hemb
    | cons a t => rfl
  have hck : checkSimilarity (some emb) true (.ok rows) =
      { similar_nfts := (keptRows rows).map (fun r =>
          ⟨r.id, r.title, r.creator_wallet_address, r.image_url,
            1 - r.distance⟩)
        max_similarity :=
          ((keptRows rows).map (fun r => 1 - r.distance)).foldl max 0
        is_duplicate :=
          (((keptRows rows).map (fun r => 1 - r.distance)).foldl max 0) >
            19 / 20
        similarity_count := (keptRows rows).length
        evidence_urls := (keptRows rows).map (fun r => r.image_url)
        error := none } := by
    simp [checkSimilarity, hie]
  have hkept : ∀ r ∈ keptRows rows, 1 - r.distance ≥ 7 / 10 := by
    intro r hr
    have := (List.mem_filter.mp hr).2
    exact of_decide_eq_true this
  refine ⟨?_, ?_, ?_, ?_, ?_, ?_, rfl, rfl, ?_, ?_⟩
  · intro x hx
    rw [hck] at hx
    obtain ⟨r, hr, hxr⟩ := List.mem_map.mp hx
    refine ⟨?_, r, (List.mem_filter.mp hr).1, ?_⟩
    · rw [← hxr]
      exact hkept r hr
    · rw [← hxr]
  · rw [hck]
    simp only [List.length_map]
    calc (keptRows rows).length ≤ rows.length := List.length_filter_le _ _
    _ ≤ 10 := hlen
  · rw [hck]
    rw [List.pairwise_map]
    have hkp : (keptRows rows).Pairwise
        (fun a b => a.distance ≤ b.distance) := hsorted.filter _
    exact hkp.imp (fun h => by simpa using by linarith)
  · intro hnil
    rw [hck] at hnil ⊢
    simp only at hnil ⊢
    have : keptRows rows = [] := by
      cases h : keptRows rows with
      | nil => rfl
      | cons a t => rw [h] at hnil; simp at hnil
    rw [this]
    rfl
  · intro x xs hx
    rw [hck] at hx ⊢
    simp only at hx ⊢
    cases h : keptRows rows with
    | nil => rw [h] at hx; simp at hx
    | cons r rest =>
      rw [h, List.map_cons] at hx
      injection hx with h1 h2
      have hrest : ∀ y ∈ rest.map (fun t => 1 - t.distance),
          y ≤ 1 - r.distance := by
        intro y hy
        obtain ⟨t, ht, hyt⟩ := List.mem_map.mp hy
        have hkp : (keptRows rows).Pairwise
            (fun a b => a.distance ≤ b.distance) := hsorted.filter _
        rw [h] at hkp
        have := (List.pairwise_cons.mp hkp).1 t ht
        rw [← hyt]
        linarith
      have h0 : (0 : ℚ) ≤ 1 - r.distance := by
        have := hkept r (by rw [h]; exact List.mem_cons_self r rest)
        linarith
      simp only [List.map_cons, List.foldl]
      rw [max_eq_right h0]
      rw [foldl_max_of_le _ _ hrest, ← h1]
  · rw [hck]
    simp only
    exact decide_eq_true_iff
  · rw [show checkSimilarity (some emb) false (.ok rows) =
      zeroSimilarityResult none by simp [checkSimilarity, hie]]
  · intro e
    have : checkSimilarity (some emb) true (.error e) =
        zeroSimilarityResult
          (some ("Database search failed: " ++ e)) := by
      simp [checkSimilarity, hie]
    rw [this]
    exact ⟨rfl, rfl, rfl⟩

/-- Concrete rows for the C6 witness: two candidates at distances 0.01
and 0.4, already in ascending distance order. -/
def sampleRows : List SimilarRow :=
  [⟨"a", "A", "urlA", "ca", 1 / 100⟩, ⟨"b", "B", "urlB", "cb", 2 / 5⟩]

/-- C6 (witness): the similarity theorem applied to a concrete sorted
row list and a concrete non-empty embedding. -/
theorem c6_similarity_search_witness :
    ([1] : List ℚ) ≠ [] ∧
    sampleRows.Pairwise (fun a b => a.distance ≤ b.distance) ∧
    sampleRows.length ≤ 10 ∧
    ((checkSimilarity (some [1]) true (.ok sampleRows)).is_duplicate =
        true ↔
      (checkSimilarity (some [1]) true (.ok sampleRows)).max_similarity >
        19 / 20) := by
  have h1 : ([1] : List ℚ) ≠ [] := by simp
  have h2 : sampleRows.Pairwise (fun a b => a.distance ≤ b.distance) := by
    norm_num [sampleRows, List.pairwise_cons]
  have h3 : sampleRows.length ≤ 10 := by norm_num [sampleRows]
  exact ⟨h1, h2, h3,
    (c6_similarity_search [1] h1 sampleRows h2 h3).2.2.2.2.2.1⟩

/-! ## C7 -/

/-- C7: with no language model configured, metadata analysis returns the
static neutral default (0.7 quality, 0.1 risk, no indicators) regardless
of the response or parser, i.e. without consulting the model; when the
model is configured, an empty (post-strip) response or a failed JSON
extraction each return the documented neutral fallback (0.5 quality, 0.2
risk, exactly one suspicious indicator naming the fallback). -/
theorem c7_metadata_fallbacks (parse : String → Option RawMetadata)
    (resp : String) :
    analyzeMetadata false parse resp =
      { quality_score := 7 / 10
        suspicious_indicators := []
        metadata_risk := 1 / 10
        analysis := none } ∧
    (pyStrip resp = "" →
      analyzeMetadata true parse resp =
        { quality_score := 1 / 2
          suspicious_indicators := ["Empty LLM response"]
          metadata_risk := 1 / 5
          analysis :=
            some "Fallback analysis used due to empty response" } ∧
      (analyzeMetadata true parse resp).suspicious_indicators.length = 1) ∧
    (pyStrip resp ≠ "" → parse (extractFenced (pyStrip resp)) = none →
      analyzeMetadata true parse resp =
        { quality_score := 1 / 2
          suspicious_indicators := ["LLM response parsing failed"]
          metadata_risk := 1 / 5
          analysis :=
            some "Fallback analysis used due to parsing error" } ∧
      (analyzeMetadata true parse resp).suspicious_indicators.length
        = 1) := by
  refine ⟨rfl, ?_, ?_⟩
  · intro h
    have he : analyzeMetadata true parse resp =
        { quality_score := 1 / 2
          suspicious_indicators := ["Empty LLM response"]
          metadata_risk := 1 / 5
          analysis :=
            some "Fallback analysis used due to empty response" } := by
      simp [analyzeMetadata, h]
    exact ⟨he, by rw [he]; rfl⟩
  · intro h hp
    have he : analyzeMetadata true parse resp =
        { quality_score := 1 / 2
          suspicious_indicators := ["LLM response parsing failed"]
          metadata_risk := 1 / 5
          analysis :=
            some "Fallback analysis used due to parsing error" } := by
      simp [analyzeMetadata, h, hp]
    exact ⟨he, by rw [he]; rfl⟩

/-- C7 (witness): the metadata theorem applied at a concrete
non-empty, unparsable response. -/
theorem c7_metadata_fallbacks_witness :
    pyStrip "hello" ≠ "" ∧
    ((fun _ => (none : Option RawMetadata))
        (extractFenced (pyStrip "hello")) = none) ∧
    (analyzeMetadata true (fun _ => none) "hello" =
      { quality_score := 1 / 2
        suspicious_indicators := ["LLM response parsing failed"]
        metadata_risk := 1 / 5
        analysis := some "Fallback analysis used due to parsing error" } ∧
    (analyzeMetadata true (fun _ => none) "hello").suspicious_indicators.length
      = 1) := by
  have h1 : pyStrip "hello" ≠ "" := by decide
  exact ⟨h1, rfl,
    (c7_metadata_fallbacks (fun _ => none) "hello").2.2 h1 rfl⟩

/-! ## C8 -/

/-- C8: the claim states that a mismatched-length batch call surfaces an
explicit error to the immediate caller.  The length check in
`batch_analyze_and_embed` does raise a `ValueError`, but the function's
own blanket `except Exception` catches it and returns the ordinary value
`[False] * len(image_urls)`: with three image URLs, three ids and two
metadata entries the caller receives `[false, false, false]` and no
error. -/
theorem c8_batch_length_mismatch_swallowed :
    batchAnalyzeAndEmbedBody (fun _ _ _ => true) ["u1", "u2", "u3"]
        ["a", "b", "c"] (["m1", "m2"] : List String) =
      .error "All input lists must have the same length" ∧
    batchAnalyzeAndEmbed (fun _ _ _ => true) ["u1", "u2", "u3"]
        ["a", "b", "c"] (["m1", "m2"] : List String) =
      [false, false, false] := by
  exact ⟨rfl, rfl⟩

/-! ## C9 -/

/-- C9 (counterexample): the claim states the description-extraction
primitive raises exactly when the description is empty or shorter than
10 characters.  The code's guard is `len(description) > 10`, so a
description of exactly 10 characters - neither empty nor shorter than
10 - is also rejected. -/
theorem c9_length_ten_rejected :
    extractImageDescription (some "img") true "abcdefghij" =
      .error
        "Empty or too short description from Gemini: \x27abcdefghij\x27" ∧
    ¬ ("abcdefghij" = "" ∨ "abcdefghij".length < 10) := by
  exact ⟨rfl, by decide⟩

/-- C9 (amended): given a downloaded image and an available chat model,
the call succeeds with the stripped description exactly when that
description is longer than 10 characters, and raises otherwise (so it
raises on the empty description and on any description of length at
most 10). -/
theorem c9_description_length_guard (d : String) (resp : String) :
    (extractImageDescription (some d) true resp = .ok (pyStrip resp) ↔
      (pyStrip resp).length > 10) ∧
    ((pyStrip resp).length ≤ 10 →
      extractImageDescription (some d) true resp =
        .error ("Empty or too short description from Gemini: \x27" ++
          pyStrip resp ++ "\x27")) := by
  have hchat : extractImageDescription (some d) true resp =
      (if pyStrip resp ≠ "" ∧ (pyStrip resp).data.length > 10 then
        .ok (pyStrip resp)
      else
        .error ("Empty or too short description from Gemini: \x27" ++
          pyStrip resp ++ "\x27")) := by
    simp [extractImageDescription]
  have hlen : (pyStrip resp).length = (pyStrip resp).data.length := rfl
  by_cases hl : (pyStrip resp).data.length > 10
  · have hne : pyStrip resp ≠ "" := by
      intro hh
      rw [hh] at hl
      simp at hl
    rw [hchat, if_pos ⟨hne, hl⟩]
    constructor
    · exact ⟨fun _ => by rw [hlen]; exact hl, fun _ => rfl⟩
    · intro hle
      rw [hlen] at hle
      omega
  · rw [hchat, if_neg (fun hc => hl hc.2)]
    constructor
    · constructor
      · intro hh
        exact absurd hh (by simp)
      · intro hh
        rw [hlen] at hh
        omega
    · intro _
      rfl

/-- C9 (witness): the amended theorem applied at a concrete
11-character description. -/
theorem c9_description_length_guard_witness :
    (extractImageDescription (some "img") true "abcdefghijk" =
        .ok (pyStrip "abcdefghijk") ↔
      (pyStrip "abcdefghijk").length > 10) ∧
    (pyStrip "abcdefghijk").length > 10 ∧
    extractImageDescription (some "img") true "abcdefghijk" =
      .ok (pyStrip "abcdefghijk") := by
  have h := c9_description_length_guard "img" "abcdefghijk"
  refine ⟨h.1, by decide, h.1.mpr (by decide)⟩

end FraudGuard
